import Mathlib

/-!
Verification of the settings views of the sentry repository.

The central object is the legacy-path translator `NewSettingsWarning` from
`src/sentry/static/sentry/app/views/settings/settingsLayout.jsx`.  Paths are
modelled as lists of characters (`JStr`), and the JavaScript string and
regular-expression operations that the translator uses are embedded as
executable Lean functions:

* `projectRegex = /^\/settings\/organization\/([^\/]+)\/project\/([^\/]+)\//`
  and `accountRegex = /^\/settings\/account\/([^\/]+)\//` are anchored and
  their character classes exclude the slash, so matching is deterministic:
  it is literal-prefix consumption (`chopLead`) interleaved with taking one
  non-empty slash-free segment followed by a slash (`takeSeg`).
* `String.prototype.replace` with a plain-string pattern replaces the first
  occurrence only (`replaceFirst`).
* `String.prototype.replace` with the anchored regex
  `/^\/settings\/organization\//` replaces the literal leading prefix when
  present and is the identity otherwise (`replaceLead`).
* the unanchored test `/\/(auth|account)\//.test(p)` asks whether the path
  contains `/auth/` or `/account/` as a substring (`containsSub`).

The permission-gated danger-zone renderers of
`projectGeneralSettings.jsx` and `team/teamSettings.jsx` are embedded at the
end over plain `String`s, since no character-level reasoning is needed there.
-/

/-- Paths are JavaScript strings, modelled as lists of characters. -/
abbrev JStr := List Char

/-- Consume the literal pattern `p` from the front of `s`: `some` of the
remainder when `p` leads `s`, otherwise `none`. -/
def chopLead : JStr → JStr → Option JStr
  | [], s => some s
  | _ :: _, [] => none
  | a :: p, b :: s => if a = b then chopLead p s else none

/-- Whether the pattern leads the string (Boolean prefix test). -/
def isLead : JStr → JStr → Bool
  | [], _ => true
  | _ :: _, [] => false
  | a :: p, b :: s => a = b && isLead p s

/-- Split at the first slash: `some (before, after)` when a slash occurs,
`none` otherwise.  The slash itself is consumed. -/
def splitSeg : JStr → Option (JStr × JStr)
  | [] => none
  | c :: rest =>
    if c = '/' then some ([], rest)
    else (splitSeg rest).map fun q => (c :: q.1, q.2)

/-- Match `([^\/]+)\/` at the front of the string: one non-empty slash-free
segment followed by a slash, returning the segment and the remainder. -/
def takeSeg (s : JStr) : Option (JStr × JStr) :=
  match splitSeg s with
  | none => none
  | some (seg, r) => if seg = [] then none else some (seg, r)

/-- Replace the first occurrence of `pat` in the string by `rep`; identity
when `pat` does not occur.  This is the semantics of JavaScript
`String.prototype.replace` with a plain-string pattern. -/
def replaceFirst (pat rep : JStr) : JStr → JStr
  | [] => if isLead pat [] then rep else []
  | c :: rest =>
    if isLead pat (c :: rest) then rep ++ List.drop pat.length (c :: rest)
    else c :: replaceFirst pat rep rest

/-- Replace a leading occurrence of `pat` by `rep`; identity when `pat` does
not lead the string.  This is `replace` with an anchored literal regex. -/
def replaceLead (pat rep s : JStr) : JStr :=
  match chopLead pat s with
  | some t => rep ++ t
  | none => s

/-- Unanchored substring test, the semantics of `RegExp.prototype.test` for a
literal pattern. -/
def containsSub (pat : JStr) : JStr → Bool
  | [] => isLead pat []
  | c :: rest => isLead pat (c :: rest) || containsSub pat rest

/-- The literal `/settings/organization/` that both `projectRegex` and the
default branch of the translator start with. -/
def settingsOrgLit : JStr := "/settings/organization/".data

/-- The literal `project/` that follows the organization segment in
`projectRegex`. -/
def projectLit : JStr := "project/".data

/-- The literal `/settings/account/` that `accountRegex` starts with. -/
def settingsAccountLit : JStr := "/settings/account/".data

/-- Deterministic matcher for
`projectRegex = /^\/settings\/organization\/([^\/]+)\/project\/([^\/]+)\//`:
`some (org, proj, rest)` exactly when the regex matches, where `rest` is the
part of the path after the matched prefix. -/
def matchProject (s : JStr) : Option (JStr × JStr × JStr) :=
  (chopLead settingsOrgLit s).bind fun s1 =>
    (takeSeg s1).bind fun q =>
      (chopLead projectLit q.2).bind fun s3 =>
        (takeSeg s3).map fun r => (q.1, r.1, r.2)

/-- Deterministic matcher for
`accountRegex = /^\/settings\/account\/([^\/]+)\//`: `some (section, rest)`
exactly when the regex matches. -/
def matchAccount (s : JStr) : Option (JStr × JStr) :=
  (chopLead settingsAccountLit s).bind takeSeg

/-- The `oldLocation` computation of `NewSettingsWarning`
(settingsLayout.jsx, lines 26-40): project branch, account branch with its
four sequential literal replacements, and the organization default branch. -/
def oldLocation (s : JStr) : JStr :=
  match matchProject s with
  | some (org, proj, rest) =>
    ('/' :: org) ++ ('/' :: proj) ++ "/settings/".data ++ rest
  | none =>
    match matchAccount s with
    | some (sec, rest) =>
      replaceFirst "auth-tokens/".data []
        (replaceFirst "account/settings/api/".data "api/".data
          (replaceFirst "settings/close-account/".data "remove/".data
            (replaceFirst "details/".data []
              ("/account/settings/".data ++ sec ++ ('/' :: rest)))))
    | none => replaceLead settingsOrgLit "/organizations/".data s

/-- The `isRouter` computation of `NewSettingsWarning`
(settingsLayout.jsx, line 43): `!/\/(auth|account)\//.test(pathname)`. -/
def isRouter (s : JStr) : Bool :=
  !(containsSub "/auth/".data s || containsSub "/account/".data s)

/-- The whole translator: the legacy path together with the routing-mode
flag (`true` means the link is client-routed, `false` means it is a plain
anchor with a full navigation). -/
def newSettingsWarning (s : JStr) : JStr × Bool :=
  (oldLocation s, isRouter s)

/-- Removal of a trailing occurrence of `pat`; identity when the string does
not end with `pat`.  This follows the wording of the specification for the
`details/` step ("remove a trailing details/ segment"), to be compared with
the source semantics `replaceFirst`, which removes the first occurrence. -/
def dropTrailing (pat s : JStr) : JStr :=
  match chopLead pat.reverse s.reverse with
  | some t => t.reverse
  | none => s

/-- The account-branch pipeline exactly as the specification words it: the
rewrite to `/account/settings/{section}/...` followed by trailing-`details/`
removal and the three remaining literal replacements in the stated order.
Stated from the specification text, not from the source, to be compared with
`oldLocation`. -/
def claimAccountOutput (sec rest : JStr) : JStr :=
  replaceFirst "auth-tokens/".data []
    (replaceFirst "account/settings/api/".data "api/".data
      (replaceFirst "settings/close-account/".data "remove/".data
        (dropTrailing "details/".data
          ("/account/settings/".data ++ sec ++ ('/' :: rest)))))

/-- Render outcome of a danger-zone row: either a non-actionable help
message or an action link with a destination href. -/
inductive DangerContent
  | help (msg : String)
  | link (href : String)
deriving DecidableEq

/-- `ProjectGeneralSettings.renderRemoveProject` (projectGeneralSettings.jsx,
lines 45-98): the Remove Project link requires the `project:admin`
organization access and a non-internal project; otherwise a non-actionable
help message is shown instead. -/
def renderRemoveProject (access : List String) (isInternal : Bool)
    (orgId projectId : String) : DangerContent :=
  if !(access.contains "project:admin") then
    DangerContent.help "You do not have the required permission to remove this project."
  else if isInternal then
    DangerContent.help "This project cannot be removed. It is used internally by the Sentry server."
  else
    DangerContent.link ("/" ++ orgId ++ "/" ++ projectId ++ "/settings/remove/")

/-- `ProjectGeneralSettings.renderTransferProject` (projectGeneralSettings.jsx,
lines 100-152): the Transfer Project link under the same gating as the
Remove Project link. -/
def renderTransferProject (access : List String) (isInternal : Bool)
    (orgId projectId : String) : DangerContent :=
  if !(access.contains "project:admin") then
    DangerContent.help "You do not have the required permission to transfer this project."
  else if isInternal then
    DangerContent.help "This project cannot be removed. It is used internally by the Sentry server."
  else
    DangerContent.link ("/" ++ orgId ++ "/" ++ projectId ++ "/settings/transfer/")

/-- The Remove Team section of `TeamSettings.renderBody`
(team/teamSettings.jsx, lines 81-99): rendered exactly when the organization
access set contains `team:admin`; when rendered it carries the remove link
href. -/
def renderRemoveTeam (access : List String) (orgId teamId : String) : Option String :=
  if access.contains "team:admin" then
    some ("/organizations/" ++ orgId ++ "/teams/" ++ teamId ++ "/remove/")
  else
    none

example : oldLocation "/settings/account/close-account/".data = "/account/remove/".data := by decide
example : oldLocation "/settings/account/api/".data = "/api/".data := by decide
example : oldLocation "/settings/organization/acme/teams/".data = "/organizations/acme/teams/".data := by decide
example : oldLocation "/settings/organization/acme/project/prj/alerts/".data = "/acme/prj/settings/alerts/".data := by decide
example : isRouter "/settings/account/api/".data = false := by decide
example : isRouter "/settings/organization/acme/teams/".data = true := by decide

/-- Consuming `p ++ s` from the front by `p` leaves `s`. -/
theorem chopLead_append (p s : JStr) : chopLead p (p ++ s) = some s := by
  induction p with
  | nil => rfl
  | cons a p ih => simp [chopLead, ih]

/-- `chopLead` succeeds exactly on strings that extend the pattern. -/
theorem chopLead_eq_some (p : JStr) : ∀ s t, chopLead p s = some t ↔ s = p ++ t := by
  induction p with
  | nil =>
    intro s t
    simp [chopLead]
  | cons a p ih =>
    intro s t
    cases s with
    | nil =>
      simp [chopLead]
    | cons b s =>
      simp only [chopLead, List.cons_append, List.cons.injEq]
      by_cases h : a = b
      · subst h
        simp [ih]
      · rw [if_neg h]
        constructor
        · intro hc
          exact Option.noConfusion hc
        · rintro ⟨hb, _⟩
          exact absurd hb.symm h

/-- `chopLead` fails exactly on strings that do not extend the pattern. -/
theorem chopLead_eq_none (p s : JStr) : chopLead p s = none ↔ ∀ t, s ≠ p ++ t := by
  constructor
  · intro h t ht
    have := (chopLead_eq_some p s t).mpr ht
    rw [h] at this
    exact Option.noConfusion this
  · intro h
    cases hc : chopLead p s with
    | none => rfl
    | some t => exact absurd ((chopLead_eq_some p s t).mp hc) (h t)

/-- Splitting a slash-free block followed by a slash yields that block. -/
theorem splitSeg_append (seg rest : JStr) (h : '/' ∉ seg) :
    splitSeg (seg ++ '/' :: rest) = some (seg, rest) := by
  induction seg with
  | nil => simp [splitSeg]
  | cons c cs ih =>
    have hc : ¬ c = '/' := by
      intro e
      exact h (by rw [e]; exact List.mem_cons_self _ _)
    have hcs : '/' ∉ cs := fun m => h (List.mem_cons_of_mem _ m)
    simp only [List.cons_append, splitSeg, if_neg hc, List.append_eq, ih hcs,
      Option.map_some']

/-- Taking one segment from a non-empty slash-free block followed by a slash
yields that block. -/
theorem takeSeg_append (seg rest : JStr) (h0 : seg ≠ []) (h : '/' ∉ seg) :
    takeSeg (seg ++ '/' :: rest) = some (seg, rest) := by
  simp only [takeSeg, splitSeg_append seg rest h, if_neg h0]

/-- `projectRegex` matches a path of the project shape and captures the two
segments. -/
theorem matchProject_eq (org proj rest : JStr)
    (ho : org ≠ []) (ho2 : '/' ∉ org) (hp : proj ≠ []) (hp2 : '/' ∉ proj) :
    matchProject ("/settings/organization/".data ++ org ++ "/project/".data
        ++ proj ++ "/".data ++ rest)
      = some (org, proj, rest) := by
  have e : "/settings/organization/".data ++ org ++ "/project/".data
        ++ proj ++ "/".data ++ rest
      = settingsOrgLit ++ (org ++ '/' :: (projectLit ++ (proj ++ '/' :: rest))) := by
    rw [show "/project/".data = '/' :: projectLit from rfl,
      show "/".data = ['/'] from rfl, show "/settings/organization/".data = settingsOrgLit from rfl]
    simp [List.append_assoc]
  rw [e]
  simp only [matchProject, chopLead_append, Option.some_bind,
    takeSeg_append org _ ho ho2, takeSeg_append proj rest hp hp2, Option.map_some']

/-- `accountRegex` matches a path of the account shape and captures the
section segment. -/
theorem matchAccount_eq (sec rest : JStr) (hs : sec ≠ []) (hs2 : '/' ∉ sec) :
    matchAccount ("/settings/account/".data ++ sec ++ "/".data ++ rest)
      = some (sec, rest) := by
  have e : "/settings/account/".data ++ sec ++ "/".data ++ rest
      = settingsAccountLit ++ (sec ++ '/' :: rest) := by
    rw [show "/".data = ['/'] from rfl,
      show "/settings/account/".data = settingsAccountLit from rfl]
    simp [List.append_assoc]
  rw [e]
  simp only [matchAccount, chopLead_append, Option.some_bind,
    takeSeg_append sec rest hs hs2]

/-- A path of the account shape never matches `projectRegex`: the two
anchored literals disagree at the character after `/settings/`. -/
theorem matchProject_of_account (x : JStr) :
    matchProject (settingsAccountLit ++ x) = none := by
  have h : chopLead settingsOrgLit (settingsAccountLit ++ x) = none := rfl
  simp only [matchProject, h, Option.none_bind]

/-- On a project match, `oldLocation` takes the project branch. -/
theorem oldLocation_eq_project (s org proj rest : JStr)
    (h : matchProject s = some (org, proj, rest)) :
    oldLocation s = ('/' :: org) ++ ('/' :: proj) ++ "/settings/".data ++ rest := by
  unfold oldLocation
  rw [h]

/-- On an account match (and no project match), `oldLocation` takes the
account branch with its four sequential replacements. -/
theorem oldLocation_eq_account (s sec rest : JStr)
    (h1 : matchProject s = none) (h2 : matchAccount s = some (sec, rest)) :
    oldLocation s =
      replaceFirst "auth-tokens/".data []
        (replaceFirst "account/settings/api/".data "api/".data
          (replaceFirst "settings/close-account/".data "remove/".data
            (replaceFirst "details/".data []
              ("/account/settings/".data ++ sec ++ ('/' :: rest))))) := by
  unfold oldLocation
  rw [h1, h2]

/-- When neither regex matches, `oldLocation` takes the default branch. -/
theorem oldLocation_eq_default (s : JStr)
    (h1 : matchProject s = none) (h2 : matchAccount s = none) :
    oldLocation s = replaceLead settingsOrgLit "/organizations/".data s := by
  unfold oldLocation
  rw [h1, h2]

/-- The Boolean prefix test holds exactly on strings extending the pattern. -/
theorem isLead_iff (p : JStr) : ∀ s, isLead p s = true ↔ ∃ t, s = p ++ t := by
  induction p with
  | nil =>
    intro s
    simp [isLead]
  | cons a p ih =>
    intro s
    cases s with
    | nil =>
      simp [isLead]
    | cons b s =>
      simp only [isLead, Bool.and_eq_true, decide_eq_true_eq, List.cons_append,
        List.cons.injEq, ih]
      constructor
      · rintro ⟨hab, t, ht⟩
        exact ⟨t, hab.symm, ht⟩
      · rintro ⟨t, hba, ht⟩
        exact ⟨hba.symm, t, ht⟩

/-- The substring test holds exactly on strings containing the pattern. -/
theorem containsSub_iff (p : JStr) : ∀ s, containsSub p s = true ↔ ∃ a b, s = a ++ (p ++ b) := by
  intro s
  induction s with
  | nil =>
    simp only [containsSub, isLead_iff]
    constructor
    · rintro ⟨t, ht⟩
      exact ⟨[], t, ht⟩
    · rintro ⟨a, b, h⟩
      have ha : a = [] ∧ p ++ b = [] := List.append_eq_nil.mp h.symm
      exact ⟨b, by rw [ha.1] at h; exact h⟩
  | cons c rest ih =>
    simp only [containsSub, Bool.or_eq_true, isLead_iff, ih]
    constructor
    · rintro (⟨t, ht⟩ | ⟨a, b, h⟩)
      · exact ⟨[], t, ht⟩
      · exact ⟨c :: a, b, by rw [List.cons_append, h]⟩
    · rintro ⟨a, b, h⟩
      cases a with
      | nil =>
        exact Or.inl ⟨b, h⟩
      | cons a' as =>
        rw [List.cons_append] at h
        exact Or.inr ⟨as, b, (List.cons.injEq _ _ _ _).mp h |>.2⟩

/-- On a path of the project shape, `oldLocation` is the project rewrite. -/
theorem oldLocation_project_shape (org proj rest : JStr)
    (ho : org ≠ []) (ho2 : '/' ∉ org) (hp : proj ≠ []) (hp2 : '/' ∉ proj) :
    oldLocation ("/settings/organization/".data ++ org ++ "/project/".data
        ++ proj ++ "/".data ++ rest)
      = "/".data ++ org ++ "/".data ++ proj ++ "/settings/".data ++ rest := by
  rw [oldLocation_eq_project _ org proj rest (matchProject_eq org proj rest ho ho2 hp hp2)]
  rw [show ("/".data : JStr) = ['/'] from rfl]
  simp [List.append_assoc]

/-- On a path of the account shape, `oldLocation` is the account rewrite
followed by the four first-occurrence replacements in source order. -/
theorem oldLocation_account_shape (sec rest : JStr)
    (hs : sec ≠ []) (hs2 : '/' ∉ sec) :
    oldLocation ("/settings/account/".data ++ sec ++ "/".data ++ rest)
      = replaceFirst "auth-tokens/".data []
          (replaceFirst "account/settings/api/".data "api/".data
            (replaceFirst "settings/close-account/".data "remove/".data
              (replaceFirst "details/".data []
                ("/account/settings/".data ++ sec ++ "/".data ++ rest)))) := by
  have hshape : "/settings/account/".data ++ sec ++ "/".data ++ rest
      = settingsAccountLit ++ (sec ++ '/' :: rest) := by
    rw [show ("/".data : JStr) = ['/'] from rfl,
      show "/settings/account/".data = settingsAccountLit from rfl]
    simp [List.append_assoc]
  have hp : matchProject ("/settings/account/".data ++ sec ++ "/".data ++ rest) = none := by
    rw [hshape]
    exact matchProject_of_account _
  have ha : matchAccount ("/settings/account/".data ++ sec ++ "/".data ++ rest)
      = some (sec, rest) := matchAccount_eq sec rest hs hs2
  rw [oldLocation_eq_account _ sec rest hp ha]
  rw [show ("/".data : JStr) = ['/'] from rfl]
  simp [List.append_assoc]

/-- Claim C1 as stated is false: on `/settings/account/close-account/` the
translator's final output is not `/account/settings/remove/` (the
`settings/close-account/` → `remove/` replacement fires inside
`/account/settings/close-account/` and removes the `settings/` part too). -/
theorem close_account_claim_counterexample :
    (newSettingsWarning "/settings/account/close-account/".data).1
      ≠ "/account/settings/remove/".data := by decide

/-- Claim C1 amended: for the input path `/settings/account/close-account/`,
the translator's final output path is `/account/remove/`. -/
theorem close_account_translation :
    (newSettingsWarning "/settings/account/close-account/".data).1
      = "/account/remove/".data := by decide

/-- Claim C2: for every path `/settings/organization/ORG/project/PROJ/rest`
with ORG and PROJ non-empty and slash-free, the output path is
`/ORG/PROJ/settings/rest`. -/
theorem project_path_translation (org proj rest : JStr)
    (ho : org ≠ []) (ho2 : '/' ∉ org) (hp : proj ≠ []) (hp2 : '/' ∉ proj) :
    (newSettingsWarning ("/settings/organization/".data ++ org ++ "/project/".data
        ++ proj ++ "/".data ++ rest)).1
      = "/".data ++ org ++ "/".data ++ proj ++ "/settings/".data ++ rest :=
  oldLocation_project_shape org proj rest ho ho2 hp hp2

/-- Witness for claim C2 at ORG = acme, PROJ = prj, rest = alerts/. -/
theorem project_path_translation_witness :
    (newSettingsWarning ("/settings/organization/".data ++ "acme".data ++ "/project/".data
        ++ "prj".data ++ "/".data ++ "alerts/".data)).1
      = "/".data ++ "acme".data ++ "/".data ++ "prj".data ++ "/settings/".data ++ "alerts/".data :=
  project_path_translation "acme".data "prj".data "alerts/".data
    (by decide) (by decide) (by decide) (by decide)

/-- Claim C3 as stated is false: on the account path
`/settings/account/details/x/` the code removes the first (non-trailing)
occurrence of `details/`, while the claim's pipeline, which removes only a
trailing `details/` segment, leaves it in place. -/
theorem account_details_claim_counterexample :
    matchAccount "/settings/account/details/x/".data = some ("details".data, "x/".data) ∧
    claimAccountOutput "details".data "x/".data = "/account/settings/details/x/".data ∧
    (newSettingsWarning "/settings/account/details/x/".data).1 = "/account/settings/x/".data ∧
    (newSettingsWarning "/settings/account/details/x/".data).1
      ≠ claimAccountOutput "details".data "x/".data := by decide

/-- Claim C3 amended: for every path of the account shape
`/settings/account/SEC/rest` with SEC non-empty and slash-free, the output
is obtained by rewriting to `/account/settings/SEC/rest` and then applying,
in this exact order, four first-occurrence literal replacements: removing
the first occurrence of `details/` (not only a trailing one); replacing
`settings/close-account/` with `remove/`; replacing `account/settings/api/`
with `api/`; removing `auth-tokens/`. -/
theorem account_path_translation (sec rest : JStr)
    (hs : sec ≠ []) (hs2 : '/' ∉ sec) :
    (newSettingsWarning ("/settings/account/".data ++ sec ++ "/".data ++ rest)).1
      = replaceFirst "auth-tokens/".data []
          (replaceFirst "account/settings/api/".data "api/".data
            (replaceFirst "settings/close-account/".data "remove/".data
              (replaceFirst "details/".data []
                ("/account/settings/".data ++ sec ++ "/".data ++ rest)))) :=
  oldLocation_account_shape sec rest hs hs2

/-- Witness for the amended claim C3 at SEC = notifications, rest = empty. -/
theorem account_path_translation_witness :
    (newSettingsWarning ("/settings/account/".data ++ "notifications".data
        ++ "/".data ++ "".data)).1
      = replaceFirst "auth-tokens/".data []
          (replaceFirst "account/settings/api/".data "api/".data
            (replaceFirst "settings/close-account/".data "remove/".data
              (replaceFirst "details/".data []
                ("/account/settings/".data ++ "notifications".data ++ "/".data ++ "".data)))) :=
  account_path_translation "notifications".data "".data (by decide) (by decide)

/-- Claim C4: the routing-mode flag is "plain link" (flag `false`) exactly
when the original path contains `/auth/` or `/account/` as a substring. -/
theorem routing_mode_flag (s : JStr) :
    ((newSettingsWarning s).2 = false ↔
      (∃ a b, s = a ++ ("/auth/".data ++ b)) ∨ (∃ a b, s = a ++ ("/account/".data ++ b))) := by
  show (isRouter s = false ↔ _)
  rw [isRouter]
  rw [show ∀ x : Bool, ((!x) = false ↔ x = true) from by decide]
  rw [Bool.or_eq_true, containsSub_iff, containsSub_iff]

/-- Claim C5: when neither the project regex nor the account regex matches,
the output is the input with a leading `/settings/organization/` replaced by
`/organizations/`, and is the input itself when that prefix is absent. -/
theorem default_branch_translation (s : JStr)
    (hp : matchProject s = none) (ha : matchAccount s = none) :
    (∀ t, s = settingsOrgLit ++ t → (newSettingsWarning s).1 = "/organizations/".data ++ t) ∧
    ((∀ t, s ≠ settingsOrgLit ++ t) → (newSettingsWarning s).1 = s) := by
  have hd := oldLocation_eq_default s hp ha
  constructor
  · intro t ht
    show oldLocation s = _
    rw [hd, replaceLead, ht, chopLead_append]
  · intro h
    show oldLocation s = _
    rw [hd, replaceLead, (chopLead_eq_none _ _).mpr h]

/-- Witness for claim C5 at the spec's own example
`/settings/organization/acme/teams/`, which has no project segment. -/
theorem default_branch_translation_witness :
    (newSettingsWarning "/settings/organization/acme/teams/".data).1
      = "/organizations/".data ++ "acme/teams/".data :=
  (default_branch_translation "/settings/organization/acme/teams/".data
    (by decide) (by decide)).1 "acme/teams/".data (by decide)

/-- Claim C6: for `/settings/account/api/` the account rewrite yields
`/account/settings/api/`, which the two preceding replacements leave
untouched; the `account/settings/api/` → `api/` replacement then gives the
final output `/api/`. -/
theorem account_api_translation :
    replaceFirst "settings/close-account/".data "remove/".data
        (replaceFirst "details/".data [] "/account/settings/api/".data)
      = "/account/settings/api/".data ∧
    replaceFirst "account/settings/api/".data "api/".data "/account/settings/api/".data
      = "/api/".data ∧
    (newSettingsWarning "/settings/account/api/".data).1 = "/api/".data := by decide

/-- Claim C7: on a project-shaped path, the first rule wins and the part of
the path after the matched prefix appears unchanged at the end of the
output: no account substitution touches it, whatever trigger substrings it
contains. -/
theorem project_suffix_frame (org proj rest : JStr)
    (ho : org ≠ []) (ho2 : '/' ∉ org) (hp : proj ≠ []) (hp2 : '/' ∉ proj) :
    ∃ pre, (newSettingsWarning ("/settings/organization/".data ++ org ++ "/project/".data
        ++ proj ++ "/".data ++ rest)).1 = pre ++ rest
      ∧ pre = "/".data ++ org ++ "/".data ++ proj ++ "/settings/".data := by
  refine ⟨"/".data ++ org ++ "/".data ++ proj ++ "/settings/".data, ?_, rfl⟩
  show oldLocation ("/settings/organization/".data ++ org ++ "/project/".data
      ++ proj ++ "/".data ++ rest) = _
  rw [oldLocation_project_shape org proj rest ho ho2 hp hp2]

/-- Witness for claim C7 with a suffix made of nothing but account-branch
trigger substrings, which survive unchanged. -/
theorem project_suffix_frame_witness :
    ∃ pre, (newSettingsWarning ("/settings/organization/".data ++ "acme".data
        ++ "/project/".data ++ "prj".data ++ "/".data
        ++ "details/settings/close-account/auth-tokens/".data)).1
        = pre ++ "details/settings/close-account/auth-tokens/".data
      ∧ pre = "/".data ++ "acme".data ++ "/".data ++ "prj".data ++ "/settings/".data :=
  project_suffix_frame "acme".data "prj".data
    "details/settings/close-account/auth-tokens/".data
    (by decide) (by decide) (by decide) (by decide)

/-- Claim C8: the translator is total — every input path yields some legacy
path and some routing-mode flag, with no error result. -/
theorem translator_total (s : JStr) : ∃ p flag, newSettingsWarning s = (p, flag) :=
  ⟨oldLocation s, isRouter s, rfl⟩

/-- Claim C9: the Remove Project and Transfer Project links render exactly
when the access set contains `project:admin` and the project is not
internal; the Remove Team section renders exactly when the access set
contains `team:admin`. -/
theorem danger_zone_gating (access : List String) (intern : Bool) (o p t : String) :
    ((∃ href, renderRemoveProject access intern o p = DangerContent.link href) ↔
      (access.contains "project:admin" = true ∧ intern = false)) ∧
    ((∃ href, renderTransferProject access intern o p = DangerContent.link href) ↔
      (access.contains "project:admin" = true ∧ intern = false)) ∧
    ((renderRemoveTeam access o t).isSome = true ↔ access.contains "team:admin" = true) := by
  refine ⟨?_, ?_, ?_⟩
  · by_cases hA : "project:admin" ∈ access <;> cases intern <;>
      simp [renderRemoveProject, hA]
  · by_cases hA : "project:admin" ∈ access <;> cases intern <;>
      simp [renderTransferProject, hA]
  · by_cases hT : "team:admin" ∈ access <;>
      simp [renderRemoveTeam, hT]

/-- Claim C10: the translator is deterministic — any two evaluations on the
same input path produce the identical output pair. -/
theorem translator_deterministic (s : JStr) (r₁ r₂ : JStr × Bool)
    (h₁ : newSettingsWarning s = r₁) (h₂ : newSettingsWarning s = r₂) : r₁ = r₂ := by
  rw [← h₁, ← h₂]

/-- Witness for claim C10 at the input `/settings/account/api/`. -/
theorem translator_deterministic_witness :
    (("/api/".data : JStr), false) = (("/api/".data : JStr), false) :=
  translator_deterministic "/settings/account/api/".data _ _ (by decide) (by decide)
